import Mathlib

/-!
Shallow embedding of `src/bin/verify_15.rs` from the powersoftau round-15
audit binary.  The binary's own protocol logic (size checks, digest
attestation checks, snapshot decoding order, the generator sanity check,
the cross-round ratio checks, the alpha liveness check and the four
consecutive-powers (RLC) checks) is embedded directly.  The external
collaborators the binary consumes from the `powersoftau` library
(`same_ratio`, `power_pairs`, `Accumulator::deserialize`, the digest
accumulating `HashReader`, `ACCUMULATOR_BYTE_SIZE`) are modelled as an
abstract interface record, as the spec presents them (interface only).
-/

namespace Verify15

/-- Mirrors `UseCompression` from the powersoftau library; the binary always
passes `UseCompression::No`. -/
inductive UseCompression
  | yes
  | no
deriving DecidableEq

/-- Mirrors `CheckForCorrectness` from the powersoftau library: `yes` is the
strict policy (revalidate every point), `no` is the lenient policy (skip
revalidation). -/
inductive CheckForCorrectness
  | yes
  | no
deriving DecidableEq

/-- Decode-time structural failures of the snapshot codec, as the spec's
error taxonomy names them. -/
inductive DecodeError
  | malformedEncoding
  | pointNotInSubgroup
  | identityElementRejected
deriving DecidableEq

/-- Which of the four sequences a consecutive-powers (RLC) check failed on. -/
inductive Seq
  | tauG1
  | tauG2
  | alphaTauG1
  | betaTauG1
deriving DecidableEq

/-- The verdict of the round audit: success or the identifier of the first
failing check (each failing `assert!` in `main` is one verdict). -/
inductive Verdict
  | valid
  | sizeMismatch
  | attestationMismatch
  | decodeError (e : DecodeError)
  | generatorMismatch
  | tauUpdateMismatch
  | alphaUnchanged
  | betaUpdateMismatch
  | powersNotConsecutive (which : Seq)
deriving DecidableEq

/-- The `Accumulator` struct decoded from a challenge file: the SRS snapshot.
`G1` and `G2` are the two source groups of the pairing, kept abstract. -/
structure Accumulator (G1 G2 : Type) where
  tau_powers_g1 : List G1
  tau_powers_g2 : List G2
  alpha_tau_powers_g1 : List G1
  beta_tau_powers_g1 : List G1
  beta_g2 : G2
deriving DecidableEq

/-- Modelled from the spec: the consumed interfaces of the external
collaborators (`same_ratio`, `power_pairs`, `Accumulator::deserialize`,
the digest-accumulating reader's finalize, `ACCUMULATOR_BYTE_SIZE`, and the
canonical generators `G1Affine::one()` / `G2Affine::one()`), whose
implementations live in the powersoftau / pairing libraries, not in this
binary.  `same_ratio_g1` is the `same_ratio` instantiation whose first pair
lives in G1, `same_ratio_g2` the instantiation whose first pair lives in G2.
`power_pairs_g1` / `power_pairs_g2` are `power_pairs` for one fixed random
scalar draw. -/
structure Ext (G1 G2 : Type) where
  g1_one : G1
  g2_one : G2
  same_ratio_g1 : G1 × G1 → G2 × G2 → Bool
  same_ratio_g2 : G2 × G2 → G1 × G1 → Bool
  power_pairs_g1 : List G1 → G1 × G1
  power_pairs_g2 : List G2 → G2 × G2
  deserialize : List Nat → UseCompression → CheckForCorrectness →
    Except DecodeError (Accumulator G1 G2)
  into_hash : List Nat → List Nat
  accumulator_byte_size : Nat

/-- The published attestation digest for response 14 (`RESPONSE_14_DIGEST`). -/
def RESPONSE_14_DIGEST : String :=
  "357738325a328e2c9fc5c49a8665baf9e5bd30d0475e2d842a7541e90930b9b8c8c74380f82f503255c2dffb35ef64232b3cd05681da013e06f1b6430a0f2589"

/-- The published attestation digest for response 15 (`RESPONSE_15_DIGEST`). -/
def RESPONSE_15_DIGEST : String :=
  "c47f56c5ab6aa5234fcbfbaa9ecfa5b450672e7d65a276bfc31f3b7e43ee65ca9f7c2ad15cc3a5c22040e11aaa749e1fecb0e6d7dd8f6976865d03ffa3a4bd85"

/-- One lowercase hexadecimal digit: digits `0`-`9` then `a`-`f`. -/
def hexDigit (n : Nat) : Char :=
  if n < 10 then Char.ofNat (48 + n) else Char.ofNat (87 + n)

/-- The characters produced by `format!("\x7b:02x\x7d", byte)` for each byte in
turn: every byte (a `u8`, hence `< 256`) renders as exactly two lowercase hex
digits. -/
def hexChars : List Nat → List Char
  | [] => []
  | b :: bs => hexDigit (b / 16 % 16) :: hexDigit (b % 16) :: hexChars bs

/-- `digest.iter().map(|byte| format!("\x7b:02x\x7d", byte)).collect::<String>()`:
the digest bytes rendered as one lowercase hexadecimal string. -/
def hexString (bytes : List Nat) : String :=
  String.mk (hexChars bytes)

/-- `rlc_ratio` (lines 26-29) at `G = G1`: splits `points` into two windows of
length `n - 1` and returns each window's random linear combination, by
delegating to the library's `power_pairs`. -/
def rlc_ratio_g1 {G1 G2 : Type} (ext : Ext G1 G2) (points : List G1) : G1 × G1 :=
  ext.power_pairs_g1 points

/-- `rlc_ratio` (lines 26-29) at `G = G2`. -/
def rlc_ratio_g2 {G1 G2 : Type} (ext : Ext G1 G2) (points : List G2) : G2 × G2 :=
  ext.power_pairs_g2 points

/-- Lines 105-153 of `main`: the cross-round checks, in source order -- the
tau ratio check (`assert!(same_ratio(taus_ratio_g1, taus_ratio_g2))`), then
the alpha liveness check (`assert_ne!(alphas_14_g1, alphas_15_g1)`), then the
beta ratio check (`assert!(same_ratio(betas_ratio_g1, betas_ratio_g2))`).
Returns `some` of the first failing check's verdict, `none` if all pass.
List indexing is total here via `getD` with the group's default element; the
real accumulator sequences always have length at least 2. -/
def crossRoundChecks {G1 G2 : Type} [Inhabited G1] [Inhabited G2]
    [DecidableEq G1] (ext : Ext G1 G2) (before after : Accumulator G1 G2) :
    Option Verdict :=
  let taus_14_g1 := before.tau_powers_g1.getD 1 default
  let taus_15_g1 := after.tau_powers_g1.getD 1 default
  let taus_14_g2 := before.tau_powers_g2.getD 1 default
  let taus_15_g2 := after.tau_powers_g2.getD 1 default
  let taus_ratio_g1 := (taus_14_g1, taus_15_g1)
  let taus_ratio_g2 := (taus_14_g2, taus_15_g2)
  if ext.same_ratio_g1 taus_ratio_g1 taus_ratio_g2 = false then
    some Verdict.tauUpdateMismatch
  else
    let alphas_14_g1 := before.alpha_tau_powers_g1.getD 0 default
    let alphas_15_g1 := after.alpha_tau_powers_g1.getD 0 default
    if alphas_14_g1 = alphas_15_g1 then
      some Verdict.alphaUnchanged
    else
      let betas_ratio_g1 :=
        (before.beta_tau_powers_g1.getD 0 default,
         after.beta_tau_powers_g1.getD 0 default)
      let betas_ratio_g2 := (before.beta_g2, after.beta_g2)
      if ext.same_ratio_g1 betas_ratio_g1 betas_ratio_g2 = false then
        some Verdict.betaUpdateMismatch
      else
        none

/-- Lines 155-171 of `main`: the four consecutive-powers (RLC) checks in
source order -- `after.tau_powers_g1` against `(G2 one, taus_15_g2)`,
`after.tau_powers_g2` against `(G1 one, taus_15_g1)`, then
`after.alpha_tau_powers_g1` and `after.beta_tau_powers_g1`, each against
`(G2 one, taus_15_g2)`.  Returns `some` of the first failing check's verdict,
`none` if all pass. -/
def rlcChecks {G1 G2 : Type} [Inhabited G1] [Inhabited G2]
    (ext : Ext G1 G2) (after : Accumulator G1 G2) : Option Verdict :=
  let taus_15_g1 := after.tau_powers_g1.getD 1 default
  let taus_15_g2 := after.tau_powers_g2.getD 1 default
  let one_over_taus_g1 := (ext.g1_one, taus_15_g1)
  let one_over_taus_g2 := (ext.g2_one, taus_15_g2)
  let tau_powers_ratio_g1 := rlc_ratio_g1 ext after.tau_powers_g1
  let tau_powers_ratio_g2 := rlc_ratio_g2 ext after.tau_powers_g2
  if ext.same_ratio_g1 tau_powers_ratio_g1 one_over_taus_g2 = false then
    some (Verdict.powersNotConsecutive Seq.tauG1)
  else if ext.same_ratio_g2 tau_powers_ratio_g2 one_over_taus_g1 = false then
    some (Verdict.powersNotConsecutive Seq.tauG2)
  else
    let alpha_tau_powers_ratio_g1 := rlc_ratio_g1 ext after.alpha_tau_powers_g1
    let beta_tau_powers_ratio_g1 := rlc_ratio_g1 ext after.beta_tau_powers_g1
    if ext.same_ratio_g1 alpha_tau_powers_ratio_g1 one_over_taus_g2 = false then
      some (Verdict.powersNotConsecutive Seq.alphaTauG1)
    else if ext.same_ratio_g1 beta_tau_powers_ratio_g1 one_over_taus_g2 = false then
      some (Verdict.powersNotConsecutive Seq.betaTauG1)
    else
      none

/-- Lines 100-171 of `main`: everything after both snapshots are decoded --
the generator sanity check (lines 102-103), then the cross-round checks,
then the RLC checks, short-circuiting on the first failure. -/
def postDecodeChecks {G1 G2 : Type} [Inhabited G1] [Inhabited G2]
    [DecidableEq G1] [DecidableEq G2]
    (ext : Ext G1 G2) (before after : Accumulator G1 G2) : Verdict :=
  if after.tau_powers_g1.getD 0 default ≠ ext.g1_one then
    Verdict.generatorMismatch
  else if after.tau_powers_g2.getD 0 default ≠ ext.g2_one then
    Verdict.generatorMismatch
  else
    match crossRoundChecks ext before after with
    | some v => v
    | none =>
      match rlcChecks ext after with
      | some v => v
      | none => Verdict.valid

/-- Lines 79-171 of `main`: the lenient decode of `challenge_14`
(`CheckForCorrectness::No`, line 85), the strict decode of `challenge_15`
(`CheckForCorrectness::Yes`, line 92), each consuming the stream after the
64-byte header and failing fatally on a decode error, the two whole-file
digest finalizations (`into_hash`, lines 96-98, bound but never consulted),
and finally `postDecodeChecks`. -/
def decodeAndCheck {G1 G2 : Type} [Inhabited G1] [Inhabited G2]
    [DecidableEq G1] [DecidableEq G2]
    (ext : Ext G1 G2) (challenge_14 challenge_15 : List Nat) : Verdict :=
  match ext.deserialize (challenge_14.drop 64)
      UseCompression.no CheckForCorrectness.no with
  | Except.error e => Verdict.decodeError e
  | Except.ok before =>
    match ext.deserialize (challenge_15.drop 64)
        UseCompression.no CheckForCorrectness.yes with
    | Except.error e => Verdict.decodeError e
    | Except.ok after =>
      let _acc_digest_before := ext.into_hash challenge_14
      let _acc_digest_after := ext.into_hash challenge_15
      postDecodeChecks ext before after

/-- The whole of `main` (lines 31-171) as a function of the two challenge
files' bytes: the two size checks (lines 43-53), the two digest attestation
checks (lines 61-77, reading the first 64 bytes of each stream), then
`decodeAndCheck`. -/
def verify {G1 G2 : Type} [Inhabited G1] [Inhabited G2]
    [DecidableEq G1] [DecidableEq G2]
    (ext : Ext G1 G2) (challenge_14 challenge_15 : List Nat) : Verdict :=
  if challenge_14.length ≠ ext.accumulator_byte_size then
    Verdict.sizeMismatch
  else if challenge_15.length ≠ ext.accumulator_byte_size then
    Verdict.sizeMismatch
  else
    let response_14_digest := hexString (challenge_14.take 64)
    let response_15_digest := hexString (challenge_15.take 64)
    if response_14_digest ≠ RESPONSE_14_DIGEST then
      Verdict.attestationMismatch
    else if response_15_digest ≠ RESPONSE_15_DIGEST then
      Verdict.attestationMismatch
    else
      decodeAndCheck ext challenge_14 challenge_15

/-- The checks of `verify` that precede decoding: both files have the
expected byte size and both 64-byte headers render to the published
attestation digests. -/
def preludeOk {G1 G2 : Type} (ext : Ext G1 G2)
    (challenge_14 challenge_15 : List Nat) : Prop :=
  challenge_14.length = ext.accumulator_byte_size ∧
  challenge_15.length = ext.accumulator_byte_size ∧
  hexString (challenge_14.take 64) = RESPONSE_14_DIGEST ∧
  hexString (challenge_15.take 64) = RESPONSE_15_DIGEST

instance {G1 G2 : Type} (ext : Ext G1 G2) (c14 c15 : List Nat) :
    Decidable (preludeOk ext c14 c15) := by
  unfold preludeOk
  infer_instance

/-! ### Concrete test fixtures

A toy instantiation with `G1 = G2 = Int`, where a group element models the
discrete log of a point, `same_ratio` is ratio equality by
cross-multiplication, and `power_pairs` returns the first two elements of
the sequence (one admissible random linear combination for a degenerate
scalar draw).  Used to evaluate the embedding at concrete inputs. -/

/-- The bytes of `challenge_14`'s 64-byte header, rendering to
`RESPONSE_14_DIGEST`; with `accumulator_byte_size = 64` this is a whole
well-attested file. -/
def file14 : List Nat :=
  [53, 119, 56, 50, 90, 50, 142, 44, 159, 197, 196, 154, 134, 101, 186, 249,
   229, 189, 48, 208, 71, 94, 45, 132, 42, 117, 65, 233, 9, 48, 185, 184,
   200, 199, 67, 128, 248, 47, 80, 50, 85, 194, 223, 251, 53, 239, 100, 35,
   43, 60, 208, 86, 129, 218, 1, 62, 6, 241, 182, 67, 10, 15, 37, 137]

/-- The bytes of `challenge_15`'s 64-byte header, rendering to
`RESPONSE_15_DIGEST`. -/
def file15 : List Nat :=
  [196, 127, 86, 197, 171, 106, 165, 35, 79, 203, 251, 170, 158, 207, 165, 180,
   80, 103, 46, 125, 101, 162, 118, 191, 195, 31, 59, 126, 67, 238, 101, 202,
   159, 124, 42, 209, 92, 195, 165, 194, 32, 64, 225, 26, 170, 116, 158, 31,
   236, 176, 230, 215, 221, 143, 105, 118, 134, 93, 3, 255, 163, 164, 189, 133]

/-- An honest round: every check passes.  Scalars: tau goes 2 to 4, alpha 5
to 10, beta 3 to 6. -/
def beforeB : Accumulator Int Int :=
  { tau_powers_g1 := [1, 2]
    tau_powers_g2 := [1, 2]
    alpha_tau_powers_g1 := [5, 10]
    beta_tau_powers_g1 := [3, 6]
    beta_g2 := 3 }

/-- The after snapshot of the honest round: `beforeB` scaled by
`tau = 2`, `alpha = 2`, `beta = 2` (so the accumulated tau is 4). -/
def afterB : Accumulator Int Int :=
  { tau_powers_g1 := [1, 4]
    tau_powers_g2 := [1, 4]
    alpha_tau_powers_g1 := [10, 40]
    beta_tau_powers_g1 := [6, 24]
    beta_g2 := 6 }

/-- The toy collaborator interface: elements are discrete logs, so
`same_ratio` is cross-multiplied fraction equality and the generator is 1.
`deserialize` returns `beforeB` under the lenient policy and `afterB` under
the strict policy; files are 64 bytes (header only). -/
def extB : Ext Int Int :=
  { g1_one := 1
    g2_one := 1
    same_ratio_g1 := fun p q => p.1 * q.2 == p.2 * q.1
    same_ratio_g2 := fun p q => p.1 * q.2 == p.2 * q.1
    power_pairs_g1 := fun l => (l.getD 0 0, l.getD 1 0)
    power_pairs_g2 := fun l => (l.getD 0 0, l.getD 1 0)
    deserialize := fun _ _ c =>
      match c with
      | CheckForCorrectness.no => Except.ok beforeB
      | CheckForCorrectness.yes => Except.ok afterB
    into_hash := fun _ => []
    accumulator_byte_size := 64 }

/-- A dishonest round: the participant left alpha unchanged AND scaled beta
differently in G1 (3 to 6) than in G2 (3 to 7), so both the alpha liveness
check and the beta ratio check are violated.  Tau is honest (2 to 4). -/
def beforeA : Accumulator Int Int :=
  { tau_powers_g1 := [1, 2]
    tau_powers_g2 := [1, 2]
    alpha_tau_powers_g1 := [5, 10]
    beta_tau_powers_g1 := [3, 6]
    beta_g2 := 3 }

/-- The after snapshot of the dishonest round. -/
def afterA : Accumulator Int Int :=
  { tau_powers_g1 := [1, 4]
    tau_powers_g2 := [1, 4]
    alpha_tau_powers_g1 := [5, 20]
    beta_tau_powers_g1 := [6, 24]
    beta_g2 := 7 }

/-- The toy interface decoding the dishonest round. -/
def extA : Ext Int Int :=
  { extB with
    deserialize := fun _ _ c =>
      match c with
      | CheckForCorrectness.no => Except.ok beforeA
      | CheckForCorrectness.yes => Except.ok afterA }

/-- A toy interface whose codec rejects every stream. -/
def extErr : Ext Int Int :=
  { extB with
    deserialize := fun _ _ _ => Except.error DecodeError.malformedEncoding }

/-! ### Structural lemmas about the embedding -/

theorem getD_one_set_zero {α : Type} (l : List α) (x d : α) :
    (l.set 0 x).getD 1 d = l.getD 1 d := by
  cases l <;> rfl

/-- Whether an `Except` value is an `ok`. -/
def exceptIsOk {ε α : Type} : Except ε α → Bool
  | Except.ok _ => true
  | Except.error _ => false

theorem decodeAndCheck_shape {G1 G2 : Type} [Inhabited G1] [Inhabited G2]
    [DecidableEq G1] [DecidableEq G2]
    (ext : Ext G1 G2) (c14 c15 : List Nat) :
    (∃ e, decodeAndCheck ext c14 c15 = Verdict.decodeError e ∧
      (ext.deserialize (c14.drop 64) UseCompression.no CheckForCorrectness.no =
          Except.error e ∨
        ext.deserialize (c15.drop 64) UseCompression.no CheckForCorrectness.yes =
          Except.error e)) ∨
    (∃ b a,
      ext.deserialize (c14.drop 64) UseCompression.no CheckForCorrectness.no =
        Except.ok b ∧
      ext.deserialize (c15.drop 64) UseCompression.no CheckForCorrectness.yes =
        Except.ok a ∧
      decodeAndCheck ext c14 c15 = postDecodeChecks ext b a) := by
  unfold decodeAndCheck
  rcases hd : ext.deserialize (c14.drop 64) UseCompression.no CheckForCorrectness.no
    with e | b
  · exact Or.inl ⟨e, rfl, Or.inl rfl⟩
  · rcases hd2 : ext.deserialize (c15.drop 64) UseCompression.no CheckForCorrectness.yes
      with e | a
    · exact Or.inl ⟨e, rfl, Or.inr rfl⟩
    · exact Or.inr ⟨b, a, rfl, rfl, rfl⟩

theorem crossRoundChecks_cases {G1 G2 : Type} [Inhabited G1] [Inhabited G2]
    [DecidableEq G1] (ext : Ext G1 G2) (b a : Accumulator G1 G2) (v : Verdict)
    (h : crossRoundChecks ext b a = some v) :
    v = Verdict.tauUpdateMismatch ∨ v = Verdict.alphaUnchanged ∨
      v = Verdict.betaUpdateMismatch := by
  simp only [crossRoundChecks] at h
  split_ifs at h <;> simp_all

theorem rlcChecks_cases {G1 G2 : Type} [Inhabited G1] [Inhabited G2]
    (ext : Ext G1 G2) (a : Accumulator G1 G2) (v : Verdict)
    (h : rlcChecks ext a = some v) :
    ∃ s, v = Verdict.powersNotConsecutive s := by
  simp only [rlcChecks] at h
  split_ifs at h <;> (try simp_all) <;> exact ⟨_, h.symm⟩

theorem postDecodeChecks_cases {G1 G2 : Type} [Inhabited G1] [Inhabited G2]
    [DecidableEq G1] [DecidableEq G2]
    (ext : Ext G1 G2) (b a : Accumulator G1 G2) :
    postDecodeChecks ext b a = Verdict.valid ∨
    postDecodeChecks ext b a = Verdict.generatorMismatch ∨
    postDecodeChecks ext b a = Verdict.tauUpdateMismatch ∨
    postDecodeChecks ext b a = Verdict.alphaUnchanged ∨
    postDecodeChecks ext b a = Verdict.betaUpdateMismatch ∨
    ∃ s, postDecodeChecks ext b a = Verdict.powersNotConsecutive s := by
  simp only [postDecodeChecks]
  split_ifs
  · simp
  · simp
  · rcases hc : crossRoundChecks ext b a with _ | v
    · rcases hr : rlcChecks ext a with _ | w
      · simp
      · rcases rlcChecks_cases ext a w hr with ⟨s, rfl⟩
        simp
    · rcases crossRoundChecks_cases ext b a v hc with rfl | rfl | rfl <;> simp

theorem verify_eq_postDecode {G1 G2 : Type} [Inhabited G1] [Inhabited G2]
    [DecidableEq G1] [DecidableEq G2]
    {ext : Ext G1 G2} {c14 c15 : List Nat} {before after : Accumulator G1 G2}
    (hpre : preludeOk ext c14 c15)
    (hb : ext.deserialize (c14.drop 64) UseCompression.no CheckForCorrectness.no =
      Except.ok before)
    (ha : ext.deserialize (c15.drop 64) UseCompression.no CheckForCorrectness.yes =
      Except.ok after) :
    verify ext c14 c15 = postDecodeChecks ext before after := by
  obtain ⟨h1, h2, h3, h4⟩ := hpre
  simp [verify, decodeAndCheck, h1, h2, h3, h4, hb, ha]

theorem postDecodeChecks_char {G1 G2 : Type} [Inhabited G1] [Inhabited G2]
    [DecidableEq G1] [DecidableEq G2]
    (ext : Ext G1 G2) (before after : Accumulator G1 G2)
    (hg1 : after.tau_powers_g1.getD 0 default = ext.g1_one)
    (hg2 : after.tau_powers_g2.getD 0 default = ext.g2_one) :
    postDecodeChecks ext before after =
      if ext.same_ratio_g1
          (before.tau_powers_g1.getD 1 default, after.tau_powers_g1.getD 1 default)
          (before.tau_powers_g2.getD 1 default, after.tau_powers_g2.getD 1 default)
          = false then
        Verdict.tauUpdateMismatch
      else if before.alpha_tau_powers_g1.getD 0 default =
          after.alpha_tau_powers_g1.getD 0 default then
        Verdict.alphaUnchanged
      else if ext.same_ratio_g1
          (before.beta_tau_powers_g1.getD 0 default,
           after.beta_tau_powers_g1.getD 0 default)
          (before.beta_g2, after.beta_g2) = false then
        Verdict.betaUpdateMismatch
      else if ext.same_ratio_g1 (rlc_ratio_g1 ext after.tau_powers_g1)
          (ext.g2_one, after.tau_powers_g2.getD 1 default) = false then
        Verdict.powersNotConsecutive Seq.tauG1
      else if ext.same_ratio_g2 (rlc_ratio_g2 ext after.tau_powers_g2)
          (ext.g1_one, after.tau_powers_g1.getD 1 default) = false then
        Verdict.powersNotConsecutive Seq.tauG2
      else if ext.same_ratio_g1 (rlc_ratio_g1 ext after.alpha_tau_powers_g1)
          (ext.g2_one, after.tau_powers_g2.getD 1 default) = false then
        Verdict.powersNotConsecutive Seq.alphaTauG1
      else if ext.same_ratio_g1 (rlc_ratio_g1 ext after.beta_tau_powers_g1)
          (ext.g2_one, after.tau_powers_g2.getD 1 default) = false then
        Verdict.powersNotConsecutive Seq.betaTauG1
      else
        Verdict.valid := by
  have hc : crossRoundChecks ext before after =
      if ext.same_ratio_g1
          (before.tau_powers_g1.getD 1 default, after.tau_powers_g1.getD 1 default)
          (before.tau_powers_g2.getD 1 default, after.tau_powers_g2.getD 1 default)
          = false then
        some Verdict.tauUpdateMismatch
      else if before.alpha_tau_powers_g1.getD 0 default =
          after.alpha_tau_powers_g1.getD 0 default then
        some Verdict.alphaUnchanged
      else if ext.same_ratio_g1
          (before.beta_tau_powers_g1.getD 0 default,
           after.beta_tau_powers_g1.getD 0 default)
          (before.beta_g2, after.beta_g2) = false then
        some Verdict.betaUpdateMismatch
      else
        none := rfl
  have hr : rlcChecks ext after =
      if ext.same_ratio_g1 (rlc_ratio_g1 ext after.tau_powers_g1)
          (ext.g2_one, after.tau_powers_g2.getD 1 default) = false then
        some (Verdict.powersNotConsecutive Seq.tauG1)
      else if ext.same_ratio_g2 (rlc_ratio_g2 ext after.tau_powers_g2)
          (ext.g1_one, after.tau_powers_g1.getD 1 default) = false then
        some (Verdict.powersNotConsecutive Seq.tauG2)
      else if ext.same_ratio_g1 (rlc_ratio_g1 ext after.alpha_tau_powers_g1)
          (ext.g2_one, after.tau_powers_g2.getD 1 default) = false then
        some (Verdict.powersNotConsecutive Seq.alphaTauG1)
      else if ext.same_ratio_g1 (rlc_ratio_g1 ext after.beta_tau_powers_g1)
          (ext.g2_one, after.tau_powers_g2.getD 1 default) = false then
        some (Verdict.powersNotConsecutive Seq.betaTauG1)
      else
        none := rfl
  unfold postDecodeChecks
  rw [if_neg (not_not_intro hg1), if_neg (not_not_intro hg2), hc, hr]
  split_ifs <;> rfl

/-- The sixteen characters a lowercase hexadecimal rendering may contain. -/
def lowerHexChars : List Char :=
  "0123456789abcdef".data

/-- Whether a character is a lowercase hexadecimal digit. -/
def isLowerHex (c : Char) : Bool :=
  lowerHexChars.contains c

theorem hexChars_length (bytes : List Nat) :
    (hexChars bytes).length = 2 * bytes.length := by
  induction bytes with
  | nil => rfl
  | cons b bs ih => simp [hexChars, ih]; omega

theorem hexDigit_isLowerHex (n : Nat) (h : n < 16) :
    isLowerHex (hexDigit n) = true := by
  interval_cases n <;> decide

theorem hexChars_all_lowerHex (bytes : List Nat) :
    (hexChars bytes).all isLowerHex = true := by
  induction bytes with
  | nil => rfl
  | cons b bs ih =>
    simp only [hexChars, List.all_cons, ih, Bool.and_true]
    rw [hexDigit_isLowerHex _ (Nat.mod_lt _ (by omega)),
      hexDigit_isLowerHex _ (Nat.mod_lt _ (by omega))]
    rfl

/-- C8: the verifier returns `SizeMismatch` exactly when one of the two
files' lengths differs from the expected accumulator byte size; the size
checks precede all content reads, so the verdict on a wrong-sized file is
`SizeMismatch` no matter what the file holds -- even a file whose 64-byte
header renders to the published attestation digest. -/
theorem spec_c8_size_check {G1 G2 : Type} [Inhabited G1] [Inhabited G2]
    [DecidableEq G1] [DecidableEq G2]
    (ext : Ext G1 G2) (c14 c15 : List Nat) :
    verify ext c14 c15 = Verdict.sizeMismatch ↔
      (c14.length ≠ ext.accumulator_byte_size ∨
       c15.length ≠ ext.accumulator_byte_size) := by
  by_cases h1 : c14.length = ext.accumulator_byte_size
  · by_cases h2 : c15.length = ext.accumulator_byte_size
    · have hne : verify ext c14 c15 ≠ Verdict.sizeMismatch := by
        simp only [verify, h1, h2]
        rw [if_neg (by simp), if_neg (by simp)]
        split_ifs
        · simp
        · simp
        · rcases decodeAndCheck_shape ext c14 c15 with ⟨e, he, _⟩ | ⟨b, a, _, _, he⟩
          · simp [he]
          · rw [he]
            rcases postDecodeChecks_cases ext b a with h | h | h | h | h | ⟨s, h⟩ <;>
              simp [h]
      simp [hne, h1, h2]
    · constructor
      · intro _
        exact Or.inr h2
      · intro _
        simp only [verify, h1]
        rw [if_neg (by simp), if_pos h2]
  · constructor
    · intro _
      exact Or.inl h1
    · intro _
      simp only [verify]
      rw [if_pos h1]

/-- C5: with the size checks passed, the verdict is `AttestationMismatch`
exactly when the first 64 bytes of one of the two files, rendered as a
lowercase hexadecimal string, differ from that round's published attestation
digest (file 14 being compared to `RESPONSE_14_DIGEST` and file 15 to
`RESPONSE_15_DIGEST`); and the rendering of a 64-byte digest field is a
128-character string all of whose characters are lowercase hex digits. -/
theorem spec_c5_attestation_check {G1 G2 : Type} [Inhabited G1] [Inhabited G2]
    [DecidableEq G1] [DecidableEq G2]
    (ext : Ext G1 G2) (c14 c15 bytes : List Nat)
    (h1 : c14.length = ext.accumulator_byte_size)
    (h2 : c15.length = ext.accumulator_byte_size)
    (hlen : bytes.length = 64) :
    (verify ext c14 c15 = Verdict.attestationMismatch ↔
      (hexString (c14.take 64) ≠ RESPONSE_14_DIGEST ∨
       hexString (c15.take 64) ≠ RESPONSE_15_DIGEST)) ∧
    (hexString bytes).length = 128 ∧
    (hexString bytes).data.all isLowerHex = true := by
  refine ⟨?_, ?_, hexChars_all_lowerHex bytes⟩
  · by_cases h3 : hexString (c14.take 64) = RESPONSE_14_DIGEST
    · by_cases h4 : hexString (c15.take 64) = RESPONSE_15_DIGEST
      · have hne : verify ext c14 c15 ≠ Verdict.attestationMismatch := by
          simp only [verify, h1, h2]
          rw [if_neg (by simp), if_neg (by simp),
            if_neg (not_not_intro h3), if_neg (not_not_intro h4)]
          rcases decodeAndCheck_shape ext c14 c15 with ⟨e, he, _⟩ | ⟨b, a, _, _, he⟩
          · simp [he]
          · rw [he]
            rcases postDecodeChecks_cases ext b a with h | h | h | h | h | ⟨s, h⟩ <;>
              simp [h]
        simp [hne, h3, h4]
      · have hv : verify ext c14 c15 = Verdict.attestationMismatch := by
          simp only [verify, h1, h2]
          rw [if_neg (by simp), if_neg (by simp),
            if_neg (not_not_intro h3), if_pos h4]
        simp [hv, h4]
    · have hv : verify ext c14 c15 = Verdict.attestationMismatch := by
        simp only [verify, h1, h2]
        rw [if_neg (by simp), if_neg (by simp), if_pos h3]
      simp [hv, h3]
  · show (hexChars bytes).length = 128
    rw [hexChars_length, hlen]

/-- C6: past the prelude, the before snapshot is decoded with the lenient
policy (`CheckForCorrectness::No`) and the after snapshot with the strict
policy (`CheckForCorrectness::Yes`), and the verdict is a decode error
exactly when the lenient decode of file 14 fails with that error, or the
lenient decode of file 14 succeeds and the strict decode of file 15 fails
with that error; a decode failure is fatal, pre-empting every
protocol-soundness check. -/
theorem spec_c6_decode_policies {G1 G2 : Type} [Inhabited G1] [Inhabited G2]
    [DecidableEq G1] [DecidableEq G2]
    (ext : Ext G1 G2) (c14 c15 : List Nat) (e : DecodeError)
    (hpre : preludeOk ext c14 c15) :
    verify ext c14 c15 = Verdict.decodeError e ↔
      (ext.deserialize (c14.drop 64) UseCompression.no CheckForCorrectness.no =
          Except.error e ∨
        (exceptIsOk (ext.deserialize (c14.drop 64) UseCompression.no
            CheckForCorrectness.no) = true ∧
          ext.deserialize (c15.drop 64) UseCompression.no CheckForCorrectness.yes =
            Except.error e)) := by
  obtain ⟨h1, h2, h3, h4⟩ := hpre
  have hv : verify ext c14 c15 = decodeAndCheck ext c14 c15 := by
    simp only [verify, h1, h2, h3, h4]
    rw [if_neg (by simp), if_neg (by simp), if_neg (by simp), if_neg (by simp)]
  rw [hv]
  unfold decodeAndCheck
  rcases hd : ext.deserialize (c14.drop 64) UseCompression.no CheckForCorrectness.no
    with e' | b
  · simp [exceptIsOk]
  · rcases hd2 : ext.deserialize (c15.drop 64) UseCompression.no CheckForCorrectness.yes
      with e' | a
    · simp [exceptIsOk]
    · have hne : postDecodeChecks ext b a ≠ Verdict.decodeError e := by
        rcases postDecodeChecks_cases ext b a with hh | hh | hh | hh | hh | ⟨s, hh⟩ <;>
          simp [hh]
      simp [exceptIsOk, hne]

/-- C4: past the prelude and both decodes, the verdict is
`GeneratorMismatch` exactly when the after snapshot's zeroth tau power in G1
differs from the G1 generator or its zeroth tau power in G2 differs from the
G2 generator; when both match, verification proceeds past this check. -/
theorem spec_c4_generator_check {G1 G2 : Type} [Inhabited G1] [Inhabited G2]
    [DecidableEq G1] [DecidableEq G2]
    (ext : Ext G1 G2) (c14 c15 : List Nat) (before after : Accumulator G1 G2)
    (hpre : preludeOk ext c14 c15)
    (hb : ext.deserialize (c14.drop 64) UseCompression.no CheckForCorrectness.no =
      Except.ok before)
    (ha : ext.deserialize (c15.drop 64) UseCompression.no CheckForCorrectness.yes =
      Except.ok after) :
    verify ext c14 c15 = Verdict.generatorMismatch ↔
      (after.tau_powers_g1.getD 0 default ≠ ext.g1_one ∨
       after.tau_powers_g2.getD 0 default ≠ ext.g2_one) := by
  rw [verify_eq_postDecode hpre hb ha]
  by_cases hg1 : after.tau_powers_g1.getD 0 default = ext.g1_one
  · by_cases hg2 : after.tau_powers_g2.getD 0 default = ext.g2_one
    · rw [postDecodeChecks_char ext before after hg1 hg2]
      split_ifs <;>
        exact iff_of_false (by simp) (by push_neg; exact ⟨hg1, hg2⟩)
    · have hv : postDecodeChecks ext before after = Verdict.generatorMismatch := by
        unfold postDecodeChecks
        rw [if_neg (not_not_intro hg1), if_pos hg2]
      rw [hv]
      exact iff_of_true rfl (Or.inr hg2)
  · have hv : postDecodeChecks ext before after = Verdict.generatorMismatch := by
      unfold postDecodeChecks
      rw [if_pos hg1]
    rw [hv]
    exact iff_of_true rfl (Or.inl hg1)

theorem bool_both {b : Bool} (hf : b = false) (ht : b = true) : False := by
  rw [hf] at ht
  exact absurd ht (by decide)

/-- C1: past the prelude, the decodes and the generator check, the tau
ratio check fails (`TauUpdateMismatch`) exactly when `same_ratio` applied to
the G1 pair `(before.tau_powers_g1[1], after.tau_powers_g1[1])` and the G2
pair `(before.tau_powers_g2[1], after.tau_powers_g2[1])` returns false; and
the beta ratio check fails (`BetaUpdateMismatch`) exactly when, the tau
check and alpha check having passed, `same_ratio` applied to the G1 pair
`(before.beta_tau_powers_g1[0], after.beta_tau_powers_g1[0])` and the G2
pair `(before.beta_g2, after.beta_g2)` returns false. -/
theorem spec_c1_cross_round_ratio_args {G1 G2 : Type} [Inhabited G1] [Inhabited G2]
    [DecidableEq G1] [DecidableEq G2]
    (ext : Ext G1 G2) (c14 c15 : List Nat) (before after : Accumulator G1 G2)
    (hpre : preludeOk ext c14 c15)
    (hb : ext.deserialize (c14.drop 64) UseCompression.no CheckForCorrectness.no =
      Except.ok before)
    (ha : ext.deserialize (c15.drop 64) UseCompression.no CheckForCorrectness.yes =
      Except.ok after)
    (hg1 : after.tau_powers_g1.getD 0 default = ext.g1_one)
    (hg2 : after.tau_powers_g2.getD 0 default = ext.g2_one) :
    (verify ext c14 c15 = Verdict.tauUpdateMismatch ↔
      ext.same_ratio_g1
        (before.tau_powers_g1.getD 1 default, after.tau_powers_g1.getD 1 default)
        (before.tau_powers_g2.getD 1 default, after.tau_powers_g2.getD 1 default)
        = false) ∧
    (verify ext c14 c15 = Verdict.betaUpdateMismatch ↔
      (ext.same_ratio_g1
        (before.tau_powers_g1.getD 1 default, after.tau_powers_g1.getD 1 default)
        (before.tau_powers_g2.getD 1 default, after.tau_powers_g2.getD 1 default)
        = true ∧
       after.alpha_tau_powers_g1.getD 0 default ≠
        before.alpha_tau_powers_g1.getD 0 default ∧
       ext.same_ratio_g1
        (before.beta_tau_powers_g1.getD 0 default,
         after.beta_tau_powers_g1.getD 0 default)
        (before.beta_g2, after.beta_g2) = false)) := by
  rw [verify_eq_postDecode hpre hb ha, postDecodeChecks_char ext before after hg1 hg2]
  constructor
  · by_cases htau : ext.same_ratio_g1
        (before.tau_powers_g1.getD 1 default, after.tau_powers_g1.getD 1 default)
        (before.tau_powers_g2.getD 1 default, after.tau_powers_g2.getD 1 default)
        = false
    · rw [if_pos htau]
      exact iff_of_true rfl htau
    · rw [if_neg htau]
      split_ifs <;> exact iff_of_false (by simp) htau
  · by_cases htau : ext.same_ratio_g1
        (before.tau_powers_g1.getD 1 default, after.tau_powers_g1.getD 1 default)
        (before.tau_powers_g2.getD 1 default, after.tau_powers_g2.getD 1 default)
        = false
    · rw [if_pos htau]
      exact iff_of_false (by simp) (fun ⟨ht, _, _⟩ => bool_both htau ht)
    · rw [if_neg htau]
      have htau' : ext.same_ratio_g1
          (before.tau_powers_g1.getD 1 default, after.tau_powers_g1.getD 1 default)
          (before.tau_powers_g2.getD 1 default, after.tau_powers_g2.getD 1 default)
          = true := by simpa using htau
      by_cases hal : before.alpha_tau_powers_g1.getD 0 default =
          after.alpha_tau_powers_g1.getD 0 default
      · rw [if_pos hal]
        exact iff_of_false (by simp) (fun ⟨_, hne, _⟩ => hne hal.symm)
      · rw [if_neg hal]
        by_cases hbeta : ext.same_ratio_g1
            (before.beta_tau_powers_g1.getD 0 default,
             after.beta_tau_powers_g1.getD 0 default)
            (before.beta_g2, after.beta_g2) = false
        · rw [if_pos hbeta]
          exact iff_of_true rfl ⟨htau', fun h => hal h.symm, hbeta⟩
        · rw [if_neg hbeta]
          split_ifs <;> exact iff_of_false (by simp) (fun ⟨_, _, hb3⟩ => hbeta hb3)

/-- C7: past the prelude, the decodes, the generator check and a passing
tau ratio check, the verdict is `AlphaUnchanged` exactly when
`after.alpha_tau_powers_g1[0]` equals `before.alpha_tau_powers_g1[0]` -- a
plain equality test involving no pairing; moreover the cross-round stage
consults no element of the alpha-tau sequences other than index 0: replacing
either snapshot's alpha-tau sequence by any list with the same zeroth
element leaves the whole cross-round stage's outcome unchanged. -/
theorem spec_c7_alpha_liveness {G1 G2 : Type} [Inhabited G1] [Inhabited G2]
    [DecidableEq G1] [DecidableEq G2]
    (ext : Ext G1 G2) (c14 c15 : List Nat) (before after : Accumulator G1 G2)
    (a1 a2 : List G1)
    (hpre : preludeOk ext c14 c15)
    (hb : ext.deserialize (c14.drop 64) UseCompression.no CheckForCorrectness.no =
      Except.ok before)
    (ha : ext.deserialize (c15.drop 64) UseCompression.no CheckForCorrectness.yes =
      Except.ok after)
    (hg1 : after.tau_powers_g1.getD 0 default = ext.g1_one)
    (hg2 : after.tau_powers_g2.getD 0 default = ext.g2_one)
    (htau : ext.same_ratio_g1
      (before.tau_powers_g1.getD 1 default, after.tau_powers_g1.getD 1 default)
      (before.tau_powers_g2.getD 1 default, after.tau_powers_g2.getD 1 default)
      = true)
    (h1 : a1.getD 0 default = before.alpha_tau_powers_g1.getD 0 default)
    (h2 : a2.getD 0 default = after.alpha_tau_powers_g1.getD 0 default) :
    (verify ext c14 c15 = Verdict.alphaUnchanged ↔
      after.alpha_tau_powers_g1.getD 0 default =
        before.alpha_tau_powers_g1.getD 0 default) ∧
    crossRoundChecks ext { before with alpha_tau_powers_g1 := a1 }
        { after with alpha_tau_powers_g1 := a2 } =
      crossRoundChecks ext before after := by
  constructor
  · rw [verify_eq_postDecode hpre hb ha, postDecodeChecks_char ext before after hg1 hg2]
    rw [if_neg (fun hf => bool_both hf htau)]
    by_cases hal : before.alpha_tau_powers_g1.getD 0 default =
        after.alpha_tau_powers_g1.getD 0 default
    · rw [if_pos hal]
      exact iff_of_true rfl hal.symm
    · rw [if_neg hal]
      split_ifs <;> exact iff_of_false (by simp) (fun h => hal h.symm)
  · dsimp only [crossRoundChecks]
    rw [h1, h2]

/-- C2: past the prelude, the decodes, the generator check and passing
cross-round checks, each of the four consecutive-powers checks fails
(`PowersNotConsecutive` for its sequence) exactly when the checks before it
passed and its own `same_ratio` call -- the RLC pair of the sequence against
the pair (generator, first tau power of the after snapshot) in the other
group -- returns false. -/
theorem spec_c2_rlc_args {G1 G2 : Type} [Inhabited G1] [Inhabited G2]
    [DecidableEq G1] [DecidableEq G2]
    (ext : Ext G1 G2) (c14 c15 : List Nat) (before after : Accumulator G1 G2)
    (hpre : preludeOk ext c14 c15)
    (hb : ext.deserialize (c14.drop 64) UseCompression.no CheckForCorrectness.no =
      Except.ok before)
    (ha : ext.deserialize (c15.drop 64) UseCompression.no CheckForCorrectness.yes =
      Except.ok after)
    (hg1 : after.tau_powers_g1.getD 0 default = ext.g1_one)
    (hg2 : after.tau_powers_g2.getD 0 default = ext.g2_one)
    (htau : ext.same_ratio_g1
      (before.tau_powers_g1.getD 1 default, after.tau_powers_g1.getD 1 default)
      (before.tau_powers_g2.getD 1 default, after.tau_powers_g2.getD 1 default)
      = true)
    (hal : after.alpha_tau_powers_g1.getD 0 default ≠
      before.alpha_tau_powers_g1.getD 0 default)
    (hbeta : ext.same_ratio_g1
      (before.beta_tau_powers_g1.getD 0 default,
       after.beta_tau_powers_g1.getD 0 default)
      (before.beta_g2, after.beta_g2) = true) :
    (verify ext c14 c15 = Verdict.powersNotConsecutive Seq.tauG1 ↔
      ext.same_ratio_g1 (rlc_ratio_g1 ext after.tau_powers_g1)
        (ext.g2_one, after.tau_powers_g2.getD 1 default) = false) ∧
    (verify ext c14 c15 = Verdict.powersNotConsecutive Seq.tauG2 ↔
      (ext.same_ratio_g1 (rlc_ratio_g1 ext after.tau_powers_g1)
        (ext.g2_one, after.tau_powers_g2.getD 1 default) = true ∧
       ext.same_ratio_g2 (rlc_ratio_g2 ext after.tau_powers_g2)
        (ext.g1_one, after.tau_powers_g1.getD 1 default) = false)) ∧
    (verify ext c14 c15 = Verdict.powersNotConsecutive Seq.alphaTauG1 ↔
      (ext.same_ratio_g1 (rlc_ratio_g1 ext after.tau_powers_g1)
        (ext.g2_one, after.tau_powers_g2.getD 1 default) = true ∧
       ext.same_ratio_g2 (rlc_ratio_g2 ext after.tau_powers_g2)
        (ext.g1_one, after.tau_powers_g1.getD 1 default) = true ∧
       ext.same_ratio_g1 (rlc_ratio_g1 ext after.alpha_tau_powers_g1)
        (ext.g2_one, after.tau_powers_g2.getD 1 default) = false)) ∧
    (verify ext c14 c15 = Verdict.powersNotConsecutive Seq.betaTauG1 ↔
      (ext.same_ratio_g1 (rlc_ratio_g1 ext after.tau_powers_g1)
        (ext.g2_one, after.tau_powers_g2.getD 1 default) = true ∧
       ext.same_ratio_g2 (rlc_ratio_g2 ext after.tau_powers_g2)
        (ext.g1_one, after.tau_powers_g1.getD 1 default) = true ∧
       ext.same_ratio_g1 (rlc_ratio_g1 ext after.alpha_tau_powers_g1)
        (ext.g2_one, after.tau_powers_g2.getD 1 default) = true ∧
       ext.same_ratio_g1 (rlc_ratio_g1 ext after.beta_tau_powers_g1)
        (ext.g2_one, after.tau_powers_g2.getD 1 default) = false)) := by
  rw [verify_eq_postDecode hpre hb ha, postDecodeChecks_char ext before after hg1 hg2]
  rw [if_neg (fun hf => bool_both hf htau), if_neg (fun h => hal h.symm),
    if_neg (fun hf => bool_both hf hbeta)]
  refine ⟨?_, ?_, ?_, ?_⟩
  · by_cases hc1 : ext.same_ratio_g1 (rlc_ratio_g1 ext after.tau_powers_g1)
        (ext.g2_one, after.tau_powers_g2.getD 1 default) = false
    · rw [if_pos hc1]
      exact iff_of_true rfl hc1
    · rw [if_neg hc1]
      split_ifs <;> exact iff_of_false (by simp) hc1
  · by_cases hc1 : ext.same_ratio_g1 (rlc_ratio_g1 ext after.tau_powers_g1)
        (ext.g2_one, after.tau_powers_g2.getD 1 default) = false
    · rw [if_pos hc1]
      exact iff_of_false (by simp) (fun ⟨ht, _⟩ => bool_both hc1 ht)
    · rw [if_neg hc1]
      have hc1' : ext.same_ratio_g1 (rlc_ratio_g1 ext after.tau_powers_g1)
          (ext.g2_one, after.tau_powers_g2.getD 1 default) = true := by
        simpa using hc1
      by_cases hc2 : ext.same_ratio_g2 (rlc_ratio_g2 ext after.tau_powers_g2)
          (ext.g1_one, after.tau_powers_g1.getD 1 default) = false
      · rw [if_pos hc2]
        exact iff_of_true rfl ⟨hc1', hc2⟩
      · rw [if_neg hc2]
        split_ifs <;> exact iff_of_false (by simp) (fun ⟨_, h2f⟩ => hc2 h2f)
  · by_cases hc1 : ext.same_ratio_g1 (rlc_ratio_g1 ext after.tau_powers_g1)
        (ext.g2_one, after.tau_powers_g2.getD 1 default) = false
    · rw [if_pos hc1]
      exact iff_of_false (by simp) (fun ⟨ht, _, _⟩ => bool_both hc1 ht)
    · rw [if_neg hc1]
      have hc1' : ext.same_ratio_g1 (rlc_ratio_g1 ext after.tau_powers_g1)
          (ext.g2_one, after.tau_powers_g2.getD 1 default) = true := by
        simpa using hc1
      by_cases hc2 : ext.same_ratio_g2 (rlc_ratio_g2 ext after.tau_powers_g2)
          (ext.g1_one, after.tau_powers_g1.getD 1 default) = false
      · rw [if_pos hc2]
        exact iff_of_false (by simp) (fun ⟨_, ht, _⟩ => bool_both hc2 ht)
      · rw [if_neg hc2]
        have hc2' : ext.same_ratio_g2 (rlc_ratio_g2 ext after.tau_powers_g2)
            (ext.g1_one, after.tau_powers_g1.getD 1 default) = true := by
          simpa using hc2
        by_cases hc3 : ext.same_ratio_g1 (rlc_ratio_g1 ext after.alpha_tau_powers_g1)
            (ext.g2_one, after.tau_powers_g2.getD 1 default) = false
        · rw [if_pos hc3]
          exact iff_of_true rfl ⟨hc1', hc2', hc3⟩
        · rw [if_neg hc3]
          split_ifs <;> exact iff_of_false (by simp) (fun ⟨_, _, h3f⟩ => hc3 h3f)
  · by_cases hc1 : ext.same_ratio_g1 (rlc_ratio_g1 ext after.tau_powers_g1)
        (ext.g2_one, after.tau_powers_g2.getD 1 default) = false
    · rw [if_pos hc1]
      exact iff_of_false (by simp) (fun ⟨ht, _, _, _⟩ => bool_both hc1 ht)
    · rw [if_neg hc1]
      have hc1' : ext.same_ratio_g1 (rlc_ratio_g1 ext after.tau_powers_g1)
          (ext.g2_one, after.tau_powers_g2.getD 1 default) = true := by
        simpa using hc1
      by_cases hc2 : ext.same_ratio_g2 (rlc_ratio_g2 ext after.tau_powers_g2)
          (ext.g1_one, after.tau_powers_g1.getD 1 default) = false
      · rw [if_pos hc2]
        exact iff_of_false (by simp) (fun ⟨_, ht, _, _⟩ => bool_both hc2 ht)
      · rw [if_neg hc2]
        have hc2' : ext.same_ratio_g2 (rlc_ratio_g2 ext after.tau_powers_g2)
            (ext.g1_one, after.tau_powers_g1.getD 1 default) = true := by
          simpa using hc2
        by_cases hc3 : ext.same_ratio_g1 (rlc_ratio_g1 ext after.alpha_tau_powers_g1)
            (ext.g2_one, after.tau_powers_g2.getD 1 default) = false
        · rw [if_pos hc3]
          exact iff_of_false (by simp) (fun ⟨_, _, ht, _⟩ => bool_both hc3 ht)
        · rw [if_neg hc3]
          have hc3' : ext.same_ratio_g1 (rlc_ratio_g1 ext after.alpha_tau_powers_g1)
              (ext.g2_one, after.tau_powers_g2.getD 1 default) = true := by
            simpa using hc3
          by_cases hc4 : ext.same_ratio_g1 (rlc_ratio_g1 ext after.beta_tau_powers_g1)
              (ext.g2_one, after.tau_powers_g2.getD 1 default) = false
          · rw [if_pos hc4]
            exact iff_of_true rfl ⟨hc1', hc2', hc3', hc4⟩
          · rw [if_neg hc4]
            exact iff_of_false (by simp) (fun ⟨_, _, _, h4f⟩ => hc4 h4f)

/-- C3 (counterexample): a decoded round on which the beta ratio check and
the alpha liveness check are both violated, yet the verdict is
`AlphaUnchanged`, not `BetaUpdateMismatch` -- the verifier runs the alpha
liveness check before the beta ratio check. -/
theorem spec_c3_counterexample :
    extA.same_ratio_g1
        (beforeA.beta_tau_powers_g1.getD 0 default,
         afterA.beta_tau_powers_g1.getD 0 default)
        (beforeA.beta_g2, afterA.beta_g2) = false ∧
    afterA.alpha_tau_powers_g1.getD 0 default =
      beforeA.alpha_tau_powers_g1.getD 0 default ∧
    verify extA file14 file15 = Verdict.alphaUnchanged ∧
    verify extA file14 file15 ≠ Verdict.betaUpdateMismatch := by
  refine ⟨by decide, by decide, by decide, by decide⟩

/-- C3 (amended): past the prelude, the decodes and the generator check,
the verifier is the first-failure cascade in source order -- the tau ratio
check, then the alpha liveness check, then the beta ratio check, then the
four consecutive-powers checks on tau-G1, tau-G2, alpha-tau-G1 and
beta-tau-G1 -- and the verdict names the first failing check; in
particular the verdict is `AlphaUnchanged` exactly when the tau check
passed and the alpha values are equal, irrespective of the beta ratio
check's outcome. -/
theorem spec_c3_check_order {G1 G2 : Type} [Inhabited G1] [Inhabited G2]
    [DecidableEq G1] [DecidableEq G2]
    (ext : Ext G1 G2) (c14 c15 : List Nat) (before after : Accumulator G1 G2)
    (hpre : preludeOk ext c14 c15)
    (hb : ext.deserialize (c14.drop 64) UseCompression.no CheckForCorrectness.no =
      Except.ok before)
    (ha : ext.deserialize (c15.drop 64) UseCompression.no CheckForCorrectness.yes =
      Except.ok after)
    (hg1 : after.tau_powers_g1.getD 0 default = ext.g1_one)
    (hg2 : after.tau_powers_g2.getD 0 default = ext.g2_one) :
    verify ext c14 c15 =
      (if ext.same_ratio_g1
          (before.tau_powers_g1.getD 1 default, after.tau_powers_g1.getD 1 default)
          (before.tau_powers_g2.getD 1 default, after.tau_powers_g2.getD 1 default)
          = false then
        Verdict.tauUpdateMismatch
      else if before.alpha_tau_powers_g1.getD 0 default =
          after.alpha_tau_powers_g1.getD 0 default then
        Verdict.alphaUnchanged
      else if ext.same_ratio_g1
          (before.beta_tau_powers_g1.getD 0 default,
           after.beta_tau_powers_g1.getD 0 default)
          (before.beta_g2, after.beta_g2) = false then
        Verdict.betaUpdateMismatch
      else if ext.same_ratio_g1 (rlc_ratio_g1 ext after.tau_powers_g1)
          (ext.g2_one, after.tau_powers_g2.getD 1 default) = false then
        Verdict.powersNotConsecutive Seq.tauG1
      else if ext.same_ratio_g2 (rlc_ratio_g2 ext after.tau_powers_g2)
          (ext.g1_one, after.tau_powers_g1.getD 1 default) = false then
        Verdict.powersNotConsecutive Seq.tauG2
      else if ext.same_ratio_g1 (rlc_ratio_g1 ext after.alpha_tau_powers_g1)
          (ext.g2_one, after.tau_powers_g2.getD 1 default) = false then
        Verdict.powersNotConsecutive Seq.alphaTauG1
      else if ext.same_ratio_g1 (rlc_ratio_g1 ext after.beta_tau_powers_g1)
          (ext.g2_one, after.tau_powers_g2.getD 1 default) = false then
        Verdict.powersNotConsecutive Seq.betaTauG1
      else
        Verdict.valid) ∧
    (verify ext c14 c15 = Verdict.alphaUnchanged ↔
      (ext.same_ratio_g1
          (before.tau_powers_g1.getD 1 default, after.tau_powers_g1.getD 1 default)
          (before.tau_powers_g2.getD 1 default, after.tau_powers_g2.getD 1 default)
          = true ∧
       before.alpha_tau_powers_g1.getD 0 default =
        after.alpha_tau_powers_g1.getD 0 default)) := by
  have hmain := postDecodeChecks_char ext before after hg1 hg2
  have hv := verify_eq_postDecode hpre hb ha
  refine ⟨hv.trans hmain, ?_⟩
  rw [hv, hmain]
  by_cases htau : ext.same_ratio_g1
      (before.tau_powers_g1.getD 1 default, after.tau_powers_g1.getD 1 default)
      (before.tau_powers_g2.getD 1 default, after.tau_powers_g2.getD 1 default)
      = false
  · rw [if_pos htau]
    exact iff_of_false (by simp) (fun ⟨ht, _⟩ => bool_both htau ht)
  · rw [if_neg htau]
    have htau' : ext.same_ratio_g1
        (before.tau_powers_g1.getD 1 default, after.tau_powers_g1.getD 1 default)
        (before.tau_powers_g2.getD 1 default, after.tau_powers_g2.getD 1 default)
        = true := by simpa using htau
    by_cases hal : before.alpha_tau_powers_g1.getD 0 default =
        after.alpha_tau_powers_g1.getD 0 default
    · rw [if_pos hal]
      exact iff_of_true rfl ⟨htau', hal⟩
    · rw [if_neg hal]
      split_ifs <;> exact iff_of_false (by simp) (fun ⟨_, h⟩ => hal h)

/-- C9: the verdict on decoded snapshots does not depend on the zeroth
elements of the before snapshot's tau-power sequences: overwriting
`before.tau_powers_g1[0]` and `before.tau_powers_g2[0]` with any values
leaves every check's outcome -- and hence the verdict -- unchanged. -/
theorem spec_c9_before_zeroth_irrelevant {G1 G2 : Type} [Inhabited G1]
    [Inhabited G2] [DecidableEq G1] [DecidableEq G2]
    (ext : Ext G1 G2) (before after : Accumulator G1 G2) (x : G1) (y : G2) :
    postDecodeChecks ext
        { before with
          tau_powers_g1 := before.tau_powers_g1.set 0 x,
          tau_powers_g2 := before.tau_powers_g2.set 0 y } after =
      postDecodeChecks ext before after := by
  have hc : crossRoundChecks ext
      { before with
        tau_powers_g1 := before.tau_powers_g1.set 0 x,
        tau_powers_g2 := before.tau_powers_g2.set 0 y } after =
      crossRoundChecks ext before after := by
    dsimp only [crossRoundChecks]
    rw [getD_one_set_zero, getD_one_set_zero]
  unfold postDecodeChecks
  rw [hc]

/-- C10: the whole-file digests finalized after deserialization
(`into_hash`, lines 96-98) never influence the verdict: verifying with any
two digest finalizers yields the same result on every input. -/
theorem spec_c10_final_digests_unused {G1 G2 : Type} [Inhabited G1]
    [Inhabited G2] [DecidableEq G1] [DecidableEq G2]
    (ext : Ext G1 G2) (f g : List Nat → List Nat) (c14 c15 : List Nat) :
    verify { ext with into_hash := f } c14 c15 =
      verify { ext with into_hash := g } c14 c15 := rfl

/-- Witness for C1 at the honest concrete round. -/
theorem spec_c1_witness :
    (preludeOk extB file14 file15 ∧
     extB.deserialize (file14.drop 64) UseCompression.no CheckForCorrectness.no =
       Except.ok beforeB ∧
     extB.deserialize (file15.drop 64) UseCompression.no CheckForCorrectness.yes =
       Except.ok afterB ∧
     afterB.tau_powers_g1.getD 0 default = extB.g1_one ∧
     afterB.tau_powers_g2.getD 0 default = extB.g2_one) ∧
    ((verify extB file14 file15 = Verdict.tauUpdateMismatch ↔
      extB.same_ratio_g1
        (beforeB.tau_powers_g1.getD 1 default, afterB.tau_powers_g1.getD 1 default)
        (beforeB.tau_powers_g2.getD 1 default, afterB.tau_powers_g2.getD 1 default)
        = false) ∧
     (verify extB file14 file15 = Verdict.betaUpdateMismatch ↔
      (extB.same_ratio_g1
        (beforeB.tau_powers_g1.getD 1 default, afterB.tau_powers_g1.getD 1 default)
        (beforeB.tau_powers_g2.getD 1 default, afterB.tau_powers_g2.getD 1 default)
        = true ∧
       afterB.alpha_tau_powers_g1.getD 0 default ≠
        beforeB.alpha_tau_powers_g1.getD 0 default ∧
       extB.same_ratio_g1
        (beforeB.beta_tau_powers_g1.getD 0 default,
         afterB.beta_tau_powers_g1.getD 0 default)
        (beforeB.beta_g2, afterB.beta_g2) = false))) :=
  ⟨⟨by decide, rfl, rfl, by decide, by decide⟩,
   spec_c1_cross_round_ratio_args extB file14 file15 beforeB afterB
     (by decide) rfl rfl (by decide) (by decide)⟩

/-- Witness for C2 at the honest concrete round. -/
theorem spec_c2_witness :
    (preludeOk extB file14 file15 ∧
     extB.deserialize (file14.drop 64) UseCompression.no CheckForCorrectness.no =
       Except.ok beforeB ∧
     extB.deserialize (file15.drop 64) UseCompression.no CheckForCorrectness.yes =
       Except.ok afterB ∧
     afterB.tau_powers_g1.getD 0 default = extB.g1_one ∧
     afterB.tau_powers_g2.getD 0 default = extB.g2_one ∧
     extB.same_ratio_g1
       (beforeB.tau_powers_g1.getD 1 default, afterB.tau_powers_g1.getD 1 default)
       (beforeB.tau_powers_g2.getD 1 default, afterB.tau_powers_g2.getD 1 default)
       = true ∧
     afterB.alpha_tau_powers_g1.getD 0 default ≠
       beforeB.alpha_tau_powers_g1.getD 0 default ∧
     extB.same_ratio_g1
       (beforeB.beta_tau_powers_g1.getD 0 default,
        afterB.beta_tau_powers_g1.getD 0 default)
       (beforeB.beta_g2, afterB.beta_g2) = true) ∧
    ((verify extB file14 file15 = Verdict.powersNotConsecutive Seq.tauG1 ↔
      extB.same_ratio_g1 (rlc_ratio_g1 extB afterB.tau_powers_g1)
        (extB.g2_one, afterB.tau_powers_g2.getD 1 default) = false) ∧
     (verify extB file14 file15 = Verdict.powersNotConsecutive Seq.tauG2 ↔
      (extB.same_ratio_g1 (rlc_ratio_g1 extB afterB.tau_powers_g1)
        (extB.g2_one, afterB.tau_powers_g2.getD 1 default) = true ∧
       extB.same_ratio_g2 (rlc_ratio_g2 extB afterB.tau_powers_g2)
        (extB.g1_one, afterB.tau_powers_g1.getD 1 default) = false)) ∧
     (verify extB file14 file15 = Verdict.powersNotConsecutive Seq.alphaTauG1 ↔
      (extB.same_ratio_g1 (rlc_ratio_g1 extB afterB.tau_powers_g1)
        (extB.g2_one, afterB.tau_powers_g2.getD 1 default) = true ∧
       extB.same_ratio_g2 (rlc_ratio_g2 extB afterB.tau_powers_g2)
        (extB.g1_one, afterB.tau_powers_g1.getD 1 default) = true ∧
       extB.same_ratio_g1 (rlc_ratio_g1 extB afterB.alpha_tau_powers_g1)
        (extB.g2_one, afterB.tau_powers_g2.getD 1 default) = false)) ∧
     (verify extB file14 file15 = Verdict.powersNotConsecutive Seq.betaTauG1 ↔
      (extB.same_ratio_g1 (rlc_ratio_g1 extB afterB.tau_powers_g1)
        (extB.g2_one, afterB.tau_powers_g2.getD 1 default) = true ∧
       extB.same_ratio_g2 (rlc_ratio_g2 extB afterB.tau_powers_g2)
        (extB.g1_one, afterB.tau_powers_g1.getD 1 default) = true ∧
       extB.same_ratio_g1 (rlc_ratio_g1 extB afterB.alpha_tau_powers_g1)
        (extB.g2_one, afterB.tau_powers_g2.getD 1 default) = true ∧
       extB.same_ratio_g1 (rlc_ratio_g1 extB afterB.beta_tau_powers_g1)
        (extB.g2_one, afterB.tau_powers_g2.getD 1 default) = false))) :=
  ⟨⟨by decide, rfl, rfl, by decide, by decide, by decide, by decide, by decide⟩,
   spec_c2_rlc_args extB file14 file15 beforeB afterB
     (by decide) rfl rfl (by decide) (by decide) (by decide) (by decide) (by decide)⟩

/-- Witness for C3's amended theorem at the honest concrete round. -/
theorem spec_c3_witness :
    (preludeOk extB file14 file15 ∧
     extB.deserialize (file14.drop 64) UseCompression.no CheckForCorrectness.no =
       Except.ok beforeB ∧
     extB.deserialize (file15.drop 64) UseCompression.no CheckForCorrectness.yes =
       Except.ok afterB ∧
     afterB.tau_powers_g1.getD 0 default = extB.g1_one ∧
     afterB.tau_powers_g2.getD 0 default = extB.g2_one) ∧
    (verify extB file14 file15 =
      (if extB.same_ratio_g1
          (beforeB.tau_powers_g1.getD 1 default, afterB.tau_powers_g1.getD 1 default)
          (beforeB.tau_powers_g2.getD 1 default, afterB.tau_powers_g2.getD 1 default)
          = false then
        Verdict.tauUpdateMismatch
      else if beforeB.alpha_tau_powers_g1.getD 0 default =
          afterB.alpha_tau_powers_g1.getD 0 default then
        Verdict.alphaUnchanged
      else if extB.same_ratio_g1
          (beforeB.beta_tau_powers_g1.getD 0 default,
           afterB.beta_tau_powers_g1.getD 0 default)
          (beforeB.beta_g2, afterB.beta_g2) = false then
        Verdict.betaUpdateMismatch
      else if extB.same_ratio_g1 (rlc_ratio_g1 extB afterB.tau_powers_g1)
          (extB.g2_one, afterB.tau_powers_g2.getD 1 default) = false then
        Verdict.powersNotConsecutive Seq.tauG1
      else if extB.same_ratio_g2 (rlc_ratio_g2 extB afterB.tau_powers_g2)
          (extB.g1_one, afterB.tau_powers_g1.getD 1 default) = false then
        Verdict.powersNotConsecutive Seq.tauG2
      else if extB.same_ratio_g1 (rlc_ratio_g1 extB afterB.alpha_tau_powers_g1)
          (extB.g2_one, afterB.tau_powers_g2.getD 1 default) = false then
        Verdict.powersNotConsecutive Seq.alphaTauG1
      else if extB.same_ratio_g1 (rlc_ratio_g1 extB afterB.beta_tau_powers_g1)
          (extB.g2_one, afterB.tau_powers_g2.getD 1 default) = false then
        Verdict.powersNotConsecutive Seq.betaTauG1
      else
        Verdict.valid) ∧
     (verify extB file14 file15 = Verdict.alphaUnchanged ↔
      (extB.same_ratio_g1
          (beforeB.tau_powers_g1.getD 1 default, afterB.tau_powers_g1.getD 1 default)
          (beforeB.tau_powers_g2.getD 1 default, afterB.tau_powers_g2.getD 1 default)
          = true ∧
       beforeB.alpha_tau_powers_g1.getD 0 default =
        afterB.alpha_tau_powers_g1.getD 0 default))) :=
  ⟨⟨by decide, rfl, rfl, by decide, by decide⟩,
   spec_c3_check_order extB file14 file15 beforeB afterB
     (by decide) rfl rfl (by decide) (by decide)⟩

/-- Witness for C4 at the honest concrete round. -/
theorem spec_c4_witness :
    (preludeOk extB file14 file15 ∧
     extB.deserialize (file14.drop 64) UseCompression.no CheckForCorrectness.no =
       Except.ok beforeB ∧
     extB.deserialize (file15.drop 64) UseCompression.no CheckForCorrectness.yes =
       Except.ok afterB) ∧
    (verify extB file14 file15 = Verdict.generatorMismatch ↔
      (afterB.tau_powers_g1.getD 0 default ≠ extB.g1_one ∨
       afterB.tau_powers_g2.getD 0 default ≠ extB.g2_one)) :=
  ⟨⟨by decide, rfl, rfl⟩,
   spec_c4_generator_check extB file14 file15 beforeB afterB (by decide) rfl rfl⟩

/-- Witness for C5 at the honest concrete round, rendering `file14`'s
64-byte header. -/
theorem spec_c5_witness :
    (file14.length = extB.accumulator_byte_size ∧
     file15.length = extB.accumulator_byte_size ∧
     file14.length = 64) ∧
    ((verify extB file14 file15 = Verdict.attestationMismatch ↔
      (hexString (file14.take 64) ≠ RESPONSE_14_DIGEST ∨
       hexString (file15.take 64) ≠ RESPONSE_15_DIGEST)) ∧
     (hexString file14).length = 128 ∧
     (hexString file14).data.all isLowerHex = true) :=
  ⟨⟨by decide, by decide, by decide⟩,
   spec_c5_attestation_check extB file14 file15 file14
     (by decide) (by decide) (by decide)⟩

/-- Witness for C6 at the concrete round whose codec rejects every
stream. -/
theorem spec_c6_witness :
    preludeOk extErr file14 file15 ∧
    (verify extErr file14 file15 =
        Verdict.decodeError DecodeError.malformedEncoding ↔
      (extErr.deserialize (file14.drop 64) UseCompression.no CheckForCorrectness.no =
          Except.error DecodeError.malformedEncoding ∨
        (exceptIsOk (extErr.deserialize (file14.drop 64) UseCompression.no
            CheckForCorrectness.no) = true ∧
          extErr.deserialize (file15.drop 64) UseCompression.no
              CheckForCorrectness.yes =
            Except.error DecodeError.malformedEncoding))) :=
  ⟨by decide,
   spec_c6_decode_policies extErr file14 file15 DecodeError.malformedEncoding
     (by decide)⟩

/-- Witness for C7 at the honest concrete round, replacing the alpha
sequences beyond index 0. -/
theorem spec_c7_witness :
    (preludeOk extB file14 file15 ∧
     extB.deserialize (file14.drop 64) UseCompression.no CheckForCorrectness.no =
       Except.ok beforeB ∧
     extB.deserialize (file15.drop 64) UseCompression.no CheckForCorrectness.yes =
       Except.ok afterB ∧
     afterB.tau_powers_g1.getD 0 default = extB.g1_one ∧
     afterB.tau_powers_g2.getD 0 default = extB.g2_one ∧
     extB.same_ratio_g1
       (beforeB.tau_powers_g1.getD 1 default, afterB.tau_powers_g1.getD 1 default)
       (beforeB.tau_powers_g2.getD 1 default, afterB.tau_powers_g2.getD 1 default)
       = true ∧
     ([(5 : Int), 999].getD 0 default =
       beforeB.alpha_tau_powers_g1.getD 0 default) ∧
     ([(10 : Int), 777].getD 0 default =
       afterB.alpha_tau_powers_g1.getD 0 default)) ∧
    ((verify extB file14 file15 = Verdict.alphaUnchanged ↔
      afterB.alpha_tau_powers_g1.getD 0 default =
        beforeB.alpha_tau_powers_g1.getD 0 default) ∧
     crossRoundChecks extB { beforeB with alpha_tau_powers_g1 := [(5 : Int), 999] }
        { afterB with alpha_tau_powers_g1 := [(10 : Int), 777] } =
      crossRoundChecks extB beforeB afterB) :=
  ⟨⟨by decide, rfl, rfl, by decide, by decide, by decide, by decide, by decide⟩,
   spec_c7_alpha_liveness extB file14 file15 beforeB afterB
     [(5 : Int), 999] [(10 : Int), 777]
     (by decide) rfl rfl (by decide) (by decide) (by decide) (by decide) (by decide)⟩

end Verify15
